import Mathlib

/-!
Shallow embedding of the page-object layer of the `playwright-basic` test
suite (files `tests/pages/common/base.page.ts`, `tests/pages/auth/login.page.ts`,
`tests/pages/dashboard/dashboard.page.ts`, and the constants in
`tests/utils/constants/`).

The Playwright engine is the external collaborator.  We model it as follows:

* Each locator-addressed element is named by an `ElemId`.  The environment
  fixes, for each element, the earliest time (in ms, measured from the start
  of a wait) at which the element is visible (`visibleAt`) respectively
  hidden (`hiddenAt`); `none` means the state is never reached.  Element
  behaviour is taken to be stationary: every wait observes the same timing
  profile.  `locator.waitFor({state, timeout})` succeeds iff the earliest
  time is `some v` with `v ≤ timeout`, and otherwise raises a timeout error.
* Actions (`click`, `fill`, `clear`) auto-wait for actionability with the
  configured `actionTimeout` of 10 000 ms (`playwright.config.ts`); a click
  on an element toggles its checked state (the DOM checkbox behaviour),
  `fill`/`clear` set the input value.
* `expect(...).toBeVisible()` uses the configured expect timeout of
  10 000 ms (`playwright.config.ts`: `expect.timeout: 10 * 1000`).
* The page location over time is a piecewise-constant path: the current
  pathname plus a chronologically ordered list of (time, new path) changes.
  `page.waitForFunction(pred, …, {timeout})` polls the predicate on the
  live pathname until it holds or the timeout elapses; since the pathname
  only changes at the listed change points, this is: the predicate holds on
  the current path, or at the first listed change within the timeout.
* Every engine interaction is appended to an event log, so that ordering
  claims can be stated about the log.

Computations run in `M α = World → Except PwError α × World`: the state
(including the event log) survives an error, which models a thrown
exception caught further up (`try`/`catch` in the source).
-/

/-- Error messages from `tests/utils/constants/test-data.constants.ts`. -/
def ERROR_MESSAGES.INVALID_CREDENTIALS : String := "Invalid email or password"

/-- `TIMEOUTS.SHORT` (5 s) from `test-data.constants.ts`. -/
def TIMEOUTS.SHORT : Nat := 5000

/-- `TIMEOUTS.MEDIUM` (10 s) from `test-data.constants.ts`. -/
def TIMEOUTS.MEDIUM : Nat := 10000

/-- `TIMEOUTS.LONG` (30 s) from `test-data.constants.ts`. -/
def TIMEOUTS.LONG : Nat := 30000

/-- `URLs.LOGIN` from `urls.constants.ts`. -/
def URLs.LOGIN : String := "/login"

/-- `URLs.DASHBOARD` from `urls.constants.ts`. -/
def URLs.DASHBOARD : String := "/dashboard"

/-- `UserCredentials` from `tests/utils/types/auth.types.ts`:
`{email: string; password: string; rememberMe?: boolean}`.  The optional
field is an `Option Bool`; the truthiness test `if (credentials.rememberMe)`
holds exactly when it is `some true`. -/
structure UserCredentials where
  email : String
  password : String
  rememberMe : Option Bool

/-- The locator-addressed elements used by the login and dashboard page
objects (`data-testid` based locators declared in their constructors). -/
inductive ElemId
  | loginForm
  | emailInput
  | passwordInput
  | loginButton
  | rememberMeCheckbox
  | forgotPasswordLink
  | signupLink
  | errorMessage
  | loadingSpinner
  | showPasswordToggle
  | dashboardHeader
  | userProfile
  | logoutButton
  | profileDropdown
  | adminPanel
  | userManagementLink
deriving DecidableEq

/-- Observable engine interactions, recorded in order of execution. -/
inductive Event
  | waitVisible (e : ElemId) (timeout : Nat)
  | waitHidden (e : ElemId) (timeout : Nat)
  | click (e : ElemId)
  | clearField (e : ElemId)
  | fill (e : ElemId) (v : String)
  | waitForPath (sub : String) (timeout : Nat)
deriving DecidableEq

/-- Failures surfaced by the engine: a wait/poll that timed out, or a failed
`expect` assertion. -/
inductive PwError
  | timeout
  | assertionFailed
deriving DecidableEq

/-- The page location over time: the current pathname and the
chronologically ordered path changes still to come, as (time, new path). -/
structure PathTrace where
  current : String
  changes : List (Nat × String)

/-- The modelled browser surface: element timing profiles (environment),
element state, location, and the interaction log. -/
structure World where
  visibleAt : ElemId → Option Nat
  hiddenAt : ElemId → Option Nat
  checkedOf : ElemId → Bool
  valueOf : ElemId → String
  textOf : ElemId → String
  path : PathTrace
  events : List Event

/-- Whether `e` becomes visible within `t` ms of the start of a wait. -/
def visibleWithin (w : World) (e : ElemId) (t : Nat) : Bool :=
  match w.visibleAt e with
  | some v => decide (v ≤ t)
  | none => false

/-- Whether `e` becomes hidden within `t` ms of the start of a wait. -/
def hiddenWithin (w : World) (e : ElemId) (t : Nat) : Bool :=
  match w.hiddenAt e with
  | some v => decide (v ≤ t)
  | none => false

/-- A page-object computation: it returns a result or a raised error,
together with the world after the run (the log survives an error). -/
def M (α : Type) : Type := World → Except PwError α × World

/-- Sequencing on `M`: an error short-circuits, the world threads through. -/
def mbind {α β : Type} (x : M α) (f : α → M β) : M β := fun w =>
  match x w with
  | (Except.ok a, w') => f a w'
  | (Except.error e, w') => (Except.error e, w')

/-- Pure result on `M`. -/
def mpure {α : Type} (a : α) : M α := fun w => (Except.ok a, w)

/-- Append an interaction to the log. -/
def logEvent (w : World) (ev : Event) : World :=
  { w with events := w.events ++ [ev] }

/-- `locator.waitFor({state: 'visible', timeout})`: succeeds iff the element
becomes visible within the timeout, else raises a timeout error. -/
def waitForState (e : ElemId) (timeout : Nat) : M Unit := fun w =>
  let w' := logEvent w (Event.waitVisible e timeout)
  if visibleWithin w e timeout then (Except.ok (), w')
  else (Except.error PwError.timeout, w')

/-- `locator.waitFor({state: 'hidden', timeout})`. -/
def waitForHiddenState (e : ElemId) (timeout : Nat) : M Unit := fun w =>
  let w' := logEvent w (Event.waitHidden e timeout)
  if hiddenWithin w e timeout then (Except.ok (), w')
  else (Except.error PwError.timeout, w')

/-- `locator.click()`: auto-waits for actionability (configured
`actionTimeout` 10 000 ms), then clicks; a click toggles the element's
checked state (DOM checkbox behaviour; unobserved for non-checkboxes). -/
def locatorClick (e : ElemId) : M Unit := fun w =>
  if visibleWithin w e 10000 then
    (Except.ok (),
      { w with
        checkedOf := fun x => if x = e then !(w.checkedOf e) else w.checkedOf x,
        events := w.events ++ [Event.click e] })
  else (Except.error PwError.timeout, w)

/-- `locator.clear()`: auto-waits for actionability, then empties the value. -/
def locatorClear (e : ElemId) : M Unit := fun w =>
  if visibleWithin w e 10000 then
    (Except.ok (),
      { w with
        valueOf := fun x => if x = e then "" else w.valueOf x,
        events := w.events ++ [Event.clearField e] })
  else (Except.error PwError.timeout, w)

/-- `locator.fill(text)`: auto-waits for actionability, then sets the value. -/
def locatorFill (e : ElemId) (v : String) : M Unit := fun w =>
  if visibleWithin w e 10000 then
    (Except.ok (),
      { w with
        valueOf := fun x => if x = e then v else w.valueOf x,
        events := w.events ++ [Event.fill e v] })
  else (Except.error PwError.timeout, w)

/-- `expect(locator).toBeVisible()` with the configured expect timeout of
10 000 ms: fails the test iff the element does not become visible. -/
def expectToBeVisible (e : ElemId) : M Unit := fun w =>
  if visibleWithin w e 10000 then (Except.ok (), w)
  else (Except.error PwError.assertionFailed, w)

/-- `expect(actual).toBe(expected)` on booleans. -/
def expectToBe (actual expected : Bool) : M Unit := fun w =>
  if actual = expected then (Except.ok (), w)
  else (Except.error PwError.assertionFailed, w)

/-- `p.isPrefixOf l` on character lists. -/
def isPrefixB : List Char → List Char → Bool
  | [], _ => true
  | _ :: _, [] => false
  | a :: as, b :: bs => a = b && isPrefixB as bs

/-- Does the haystack contain the pattern as a contiguous run? -/
def containsList (pat : List Char) : List Char → Bool
  | [] => pat.isEmpty
  | c :: rest => isPrefixB pat (c :: rest) || containsList pat rest

/-- JavaScript `s.includes(pat)`: substring containment. -/
def strContains (s pat : String) : Bool := containsList pat.toList s.toList

/-- `BasePage.waitForElement(locator, timeout = 10000)`: wait until visible. -/
def waitForElement (e : ElemId) (timeout : Nat) : M Unit :=
  waitForState e timeout

/-- `BasePage.waitForElementToBeHidden(locator, timeout = 10000)`. -/
def waitForElementToBeHidden (e : ElemId) (timeout : Nat) : M Unit :=
  waitForHiddenState e timeout

/-- `BasePage.isElementVisible(locator)`: `try { waitFor visible, 1000ms;
return true } catch { return false }` — the fixed 1 s soft probe. -/
def isElementVisible (e : ElemId) : M Bool := fun w =>
  match waitForState e 1000 w with
  | (Except.ok _, w') => (Except.ok true, w')
  | (Except.error _, w') => (Except.ok false, w')

/-- `BasePage.clickElement(locator, timeout = 10000)`: wait visible, click. -/
def clickElement (e : ElemId) (timeout : Nat) : M Unit :=
  mbind (waitForElement e timeout) (fun _ => locatorClick e)

/-- `BasePage.fillInput(locator, text, timeout = 10000)`: wait visible,
clear, fill. -/
def fillInput (e : ElemId) (text : String) (timeout : Nat) : M Unit :=
  mbind (waitForElement e timeout) (fun _ =>
    mbind (locatorClear e) (fun _ => locatorFill e text))

/-- `BasePage.isElementChecked(locator)`: wait visible (default 10 s), read
the checked state. -/
def isElementChecked (e : ElemId) : M Bool :=
  mbind (waitForElement e 10000) (fun _ => fun w => (Except.ok (w.checkedOf e), w))

/-- `BasePage.getElementText(locator)`: wait visible (default 10 s), read the
text content (`textContent() || ''`, modelled as a total `String`). -/
def getElementText (e : ElemId) : M String :=
  mbind (waitForElement e 10000) (fun _ => fun w => (Except.ok (w.textOf e), w))

/-- The predicate polled by `page.waitForFunction` in `attemptLogin`,
`logout` and `validateLogoutSuccess`:
`!window.location.pathname.includes(sub)`. -/
def pathEscaped (sub : String) (p : String) : Bool := !(strContains p sub)

/-- First pathname satisfying the predicate: the live path, or the first
listed change within the timeout. -/
def findPath (sub : String) (timeout : Nat) (loc : PathTrace) : Option String :=
  if pathEscaped sub loc.current then some loc.current
  else
    match loc.changes.find? (fun c => decide (c.1 ≤ timeout) && pathEscaped sub c.2) with
    | some c => some c.2
    | none => none

/-- `page.waitForFunction((sub) => !window.location.pathname.includes(sub),
sub, {timeout})`: poll the live pathname until it no longer contains `sub`,
bounded by the timeout; on success the current path is the one observed. -/
def waitForPathEscape (sub : String) (timeout : Nat) : M Unit := fun w =>
  let w1 := logEvent w (Event.waitForPath sub timeout)
  match findPath sub timeout w1.path with
  | some p => (Except.ok (), { w1 with path := { current := p, changes := w1.path.changes } })
  | none => (Except.error PwError.timeout, w1)

/-- `LoginPage.enterEmail(email)`. -/
def enterEmail (email : String) : M Unit :=
  fillInput ElemId.emailInput email 10000

/-- `LoginPage.enterPassword(password)`. -/
def enterPassword (password : String) : M Unit :=
  fillInput ElemId.passwordInput password 10000

/-- `LoginPage.clickLoginButton()`. -/
def clickLoginButton : M Unit :=
  clickElement ElemId.loginButton 10000

/-- `LoginPage.setRememberMe(checked)`: read the current checked state and
click only if it differs from the requested one. -/
def setRememberMe (checked : Bool) : M Unit :=
  mbind (isElementChecked ElemId.rememberMeCheckbox) (fun cur =>
    if cur ≠ checked then clickElement ElemId.rememberMeCheckbox 10000
    else mpure ())

/-- `LoginPage.login(credentials)`: enterEmail, enterPassword, setRememberMe
if `credentials.rememberMe` is truthy, then click the login button. -/
def login (credentials : UserCredentials) : M Unit :=
  mbind (enterEmail credentials.email) (fun _ =>
    mbind (enterPassword credentials.password) (fun _ =>
      mbind
        (if credentials.rememberMe = some true then setRememberMe true else mpure ())
        (fun _ => clickLoginButton)))

/-- `LoginPage.clearForm()`: `emailInput.clear(); passwordInput.clear();`
then uncheck remember-me if currently checked. -/
def clearForm : M Unit :=
  mbind (locatorClear ElemId.emailInput) (fun _ =>
    mbind (locatorClear ElemId.passwordInput) (fun _ =>
      mbind (isElementChecked ElemId.rememberMeCheckbox) (fun c =>
        if c then setRememberMe false else mpure ())))

/-- `LoginPage.validateErrorMessage(expectedMessage)`: wait for the error
banner (`TIMEOUTS.MEDIUM`), assert it visible, read its text, assert the
text contains the expected message. -/
def validateErrorMessage (expectedMessage : String) : M Unit :=
  mbind (waitForElement ElemId.errorMessage TIMEOUTS.MEDIUM) (fun _ =>
    mbind (expectToBeVisible ElemId.errorMessage) (fun _ =>
      mbind (getElementText ElemId.errorMessage) (fun actual =>
        expectToBe (strContains actual expectedMessage) true)))

/-- `LoginPage.waitForLoadingToComplete()`: `try { waitFor spinner visible
(TIMEOUTS.SHORT); waitFor spinner hidden (TIMEOUTS.MEDIUM) } catch {}`. -/
def waitForLoadingToComplete : M Unit := fun w =>
  match
    mbind (waitForElement ElemId.loadingSpinner TIMEOUTS.SHORT) (fun _ =>
      waitForElementToBeHidden ElemId.loadingSpinner TIMEOUTS.MEDIUM) w
  with
  | (Except.ok _, w') => (Except.ok (), w')
  | (Except.error _, w') => (Except.ok (), w')

/-- `LoginPage.attemptLogin(credentials, expectSuccess = true)`: login, then
on the success path wait for loading and poll until the path no longer
contains `URLs.LOGIN` (bounded `TIMEOUTS.MEDIUM`); on the failure path
assert the standard invalid-credentials error message. -/
def attemptLogin (credentials : UserCredentials) (expectSuccess : Bool) : M Unit :=
  mbind (login credentials) (fun _ =>
    if expectSuccess then
      mbind waitForLoadingToComplete (fun _ =>
        waitForPathEscape URLs.LOGIN TIMEOUTS.MEDIUM)
    else
      validateErrorMessage ERROR_MESSAGES.INVALID_CREDENTIALS)

/-- `DashboardPage.openProfileDropdown()`: click the dropdown, wait for the
logout button (`TIMEOUTS.SHORT`). -/
def openProfileDropdown : M Unit :=
  mbind (clickElement ElemId.profileDropdown 10000) (fun _ =>
    waitForElement ElemId.logoutButton TIMEOUTS.SHORT)

/-- `DashboardPage.clickLogout()`: open the dropdown only when the logout
button is not visible to the 1 s soft probe, then click the logout button. -/
def clickLogout : M Unit :=
  mbind (isElementVisible ElemId.logoutButton) (fun isLogoutVisible =>
    mbind (if !isLogoutVisible then openProfileDropdown else mpure ()) (fun _ =>
      clickElement ElemId.logoutButton 10000))

/-- `DashboardPage.logout()`: clickLogout, then poll (bounded
`TIMEOUTS.MEDIUM`) until the path no longer contains `URLs.DASHBOARD`. -/
def logout : M Unit :=
  mbind clickLogout (fun _ =>
    waitForPathEscape URLs.DASHBOARD TIMEOUTS.MEDIUM)

/-- `DashboardPage.validateAdminElements()`: soft-probe each admin-only
control and assert it visible only when the probe already saw it. -/
def validateAdminElements : M Unit :=
  mbind (isElementVisible ElemId.adminPanel) (fun a =>
    mbind (if a then expectToBeVisible ElemId.adminPanel else mpure ()) (fun _ =>
      mbind (isElementVisible ElemId.userManagementLink) (fun u =>
        if u then expectToBeVisible ElemId.userManagementLink else mpure ())))

/-- `DashboardPage.validateStandardUserElements()`: soft-probe both
admin-only controls, then assert both probes returned `false`. -/
def validateStandardUserElements : M Unit :=
  mbind (isElementVisible ElemId.adminPanel) (fun a =>
    mbind (isElementVisible ElemId.userManagementLink) (fun u =>
      mbind (expectToBe a false) (fun _ => expectToBe u false)))

/-- Playwright page-load lifecycle for one navigation.  The engine fires
`domcontentloaded` before `networkidle` (documented lifecycle order:
domcontentloaded → load → networkidle); `orderInv` records that contract. -/
structure PageLoad where
  domContentLoadedAt : Nat
  networkIdleAt : Nat
  orderInv : domContentLoadedAt ≤ networkIdleAt

/-- `page.goto(url, {waitUntil: 'networkidle', timeout})`: returns once the
`networkidle` lifecycle state is reached, else times out. -/
def gotoNetworkIdle (timeout : Nat) (pl : PageLoad) : Except PwError Unit :=
  if pl.networkIdleAt ≤ timeout then Except.ok () else Except.error PwError.timeout

/-- `BasePage.navigateToUrl(url, timeout = 30000)`. -/
def navigateToUrl (_url : String) (timeout : Nat) (pl : PageLoad) : Except PwError Unit :=
  gotoNetworkIdle timeout pl

/-- `page.waitForLoadState(state, {timeout})`. -/
def waitForLoadStateAt (stateAt : Nat) (timeout : Nat) : Except PwError Unit :=
  if stateAt ≤ timeout then Except.ok () else Except.error PwError.timeout

/-- `BasePage.waitForPageLoad(timeout = 30000)`: wait for `networkidle`,
then for `domcontentloaded`. -/
def waitForPageLoad (timeout : Nat) (pl : PageLoad) : Except PwError Unit :=
  match waitForLoadStateAt pl.networkIdleAt timeout with
  | Except.ok _ => waitForLoadStateAt pl.domContentLoadedAt timeout
  | Except.error e => Except.error e

/-- A closed world used to instantiate hypotheses: nothing ever becomes
visible or hidden, the location is the login page. -/
def baseWorld : World where
  visibleAt := fun _ => none
  hiddenAt := fun _ => none
  checkedOf := fun _ => false
  valueOf := fun _ => ""
  textOf := fun _ => ""
  path := { current := "/login", changes := [] }
  events := []

/-- Helper: how one visibility wait runs. -/
theorem waitForState_run (w : World) (e : ElemId) (t : Nat) :
    waitForState e t w =
      (if visibleWithin w e t then Except.ok () else Except.error PwError.timeout,
        logEvent w (Event.waitVisible e t)) := by
  unfold waitForState
  cases h : visibleWithin w e t <;> simp [h]

/-- Helper: the soft probe always returns the 1 s visibility verdict. -/
theorem isElementVisible_run (w : World) (e : ElemId) :
    isElementVisible e w =
      (Except.ok (visibleWithin w e 1000), logEvent w (Event.waitVisible e 1000)) := by
  unfold isElementVisible
  rw [waitForState_run]
  cases h : visibleWithin w e 1000 <;> simp [h]

/-- Logging does not change the element environment: visibility. -/
theorem visibleWithin_logEvent (w : World) (ev : Event) (e : ElemId) (t : Nat) :
    visibleWithin (logEvent w ev) e t = visibleWithin w e t := rfl

/-- Logging does not change the element environment: hiddenness. -/
theorem hiddenWithin_logEvent (w : World) (ev : Event) (e : ElemId) (t : Nat) :
    hiddenWithin (logEvent w ev) e t = hiddenWithin w e t := rfl

/-- C4: `isElementVisible` never throws: it probes with the fixed 1-second
timeout, returns `true` exactly when the element becomes visible within
that window, and returns `false` instead of propagating the timeout
failure otherwise. -/
theorem isElementVisible_probe_spec (w : World) (e : ElemId) :
    isElementVisible e w =
      (Except.ok (visibleWithin w e 1000), logEvent w (Event.waitVisible e 1000)) :=
  isElementVisible_run w e

/-- C10: `waitForLoadingToComplete` never throws under any outcome — the
catch block swallows both the spinner never appearing and the spinner
staying visible beyond the 10-second hidden-wait timeout. -/
theorem waitForLoadingToComplete_never_throws (w : World) :
    (waitForLoadingToComplete w).1 = Except.ok () := by
  unfold waitForLoadingToComplete
  rcases h : mbind (waitForElement ElemId.loadingSpinner TIMEOUTS.SHORT) (fun _ =>
      waitForElementToBeHidden ElemId.loadingSpinner TIMEOUTS.MEDIUM) w with ⟨r, w'⟩
  cases r <;> simp [h]

/-- C8: when the loading spinner never appears within the short wait,
`waitForLoadingToComplete` returns normally — the absence of the indicator
is reclassified as "loading already complete" rather than surfacing the
timeout error; only the probe wait is performed. -/
theorem waitForLoadingToComplete_absence_ok (w : World)
    (h : visibleWithin w ElemId.loadingSpinner TIMEOUTS.SHORT = false) :
    waitForLoadingToComplete w =
      (Except.ok (), logEvent w (Event.waitVisible ElemId.loadingSpinner TIMEOUTS.SHORT)) := by
  unfold waitForLoadingToComplete
  unfold mbind waitForElement
  rw [waitForState_run]
  simp [h]

/-- Witness for C8 at a concrete world with no spinner. -/
theorem waitForLoadingToComplete_absence_ok_witness :
    visibleWithin baseWorld ElemId.loadingSpinner TIMEOUTS.SHORT = false ∧
      waitForLoadingToComplete baseWorld =
        (Except.ok (),
          logEvent baseWorld (Event.waitVisible ElemId.loadingSpinner TIMEOUTS.SHORT)) :=
  ⟨rfl, waitForLoadingToComplete_absence_ok baseWorld rfl⟩

/-- C2: `validateStandardUserElements` fails exactly when at least one
admin-only control (admin panel or user-management link) is visible within
the 1 s soft-probe window, while `validateAdminElements` never fails — it
asserts visibility only for controls the soft probe already found visible. -/
theorem adminControls_asymmetry (w : World) :
    ((validateStandardUserElements w).1 ≠ Except.ok () ↔
      (visibleWithin w ElemId.adminPanel 1000 = true ∨
        visibleWithin w ElemId.userManagementLink 1000 = true)) ∧
      (validateAdminElements w).1 = Except.ok () := by
  have hmono : ∀ e, visibleWithin w e 1000 = true → visibleWithin w e 10000 = true := by
    intro e he
    unfold visibleWithin at he ⊢
    rcases hv : w.visibleAt e with _ | v
    · rw [hv] at he; exact absurd he (by simp)
    · rw [hv] at he
      simp only [decide_eq_true_eq] at he ⊢
      omega
  constructor
  · cases ha : visibleWithin w ElemId.adminPanel 1000 <;>
      cases hu : visibleWithin w ElemId.userManagementLink 1000 <;>
        simp [validateStandardUserElements, mbind, mpure, isElementVisible_run,
          visibleWithin_logEvent, expectToBe, ha, hu]
  · cases ha : visibleWithin w ElemId.adminPanel 1000
    · cases hu : visibleWithin w ElemId.userManagementLink 1000
      · simp [validateAdminElements, mbind, mpure, isElementVisible_run,
          visibleWithin_logEvent, ha, hu]
      · simp [validateAdminElements, mbind, mpure, isElementVisible_run,
          visibleWithin_logEvent, expectToBeVisible, ha, hu, hmono _ hu]
    · cases hu : visibleWithin w ElemId.userManagementLink 1000
      · simp [validateAdminElements, mbind, mpure, isElementVisible_run,
          visibleWithin_logEvent, expectToBeVisible, ha, hu, hmono _ ha]
      · simp [validateAdminElements, mbind, mpure, isElementVisible_run,
          visibleWithin_logEvent, expectToBeVisible, ha, hu, hmono _ ha, hmono _ hu]

/-- Logging does not change the checkbox states. -/
theorem checkedOf_logEvent (w : World) (ev : Event) :
    (logEvent w ev).checkedOf = w.checkedOf := rfl

/-- Logging does not change the input values. -/
theorem valueOf_logEvent (w : World) (ev : Event) :
    (logEvent w ev).valueOf = w.valueOf := rfl

/-- The world after a successful `clickElement(e, 10000)`: the checkbox
state of `e` toggled, the wait and the click logged. -/
def clickedWorld (w : World) (e : ElemId) : World :=
  { w with
    checkedOf := fun x => if x = e then !(w.checkedOf e) else w.checkedOf x,
    events := w.events ++ [Event.waitVisible e 10000, Event.click e] }

/-- The world after a successful `fillInput(e, v, 10000)`: the value of `e`
set to `v`, the wait, the clear and the fill logged. -/
def filledWorld (w : World) (e : ElemId) (v : String) : World :=
  { w with
    valueOf := fun x => if x = e then v else w.valueOf x,
    events := w.events ++ [Event.waitVisible e 10000, Event.clearField e, Event.fill e v] }

/-- Helper: a successful run of `isElementChecked`. -/
theorem isElementChecked_run (w : World) (e : ElemId)
    (h : visibleWithin w e 10000 = true) :
    isElementChecked e w =
      (Except.ok (w.checkedOf e), logEvent w (Event.waitVisible e 10000)) := by
  unfold isElementChecked waitForElement mbind
  rw [waitForState_run]
  simp [h, checkedOf_logEvent]

/-- Helper: a successful run of `clickElement` at the default timeout. -/
theorem clickElement_run (w : World) (e : ElemId)
    (h : visibleWithin w e 10000 = true) :
    clickElement e 10000 w = (Except.ok (), clickedWorld w e) := by
  unfold clickElement waitForElement mbind
  rw [waitForState_run]
  simp only [h, if_true]
  unfold locatorClick
  rw [visibleWithin_logEvent]
  simp only [h, if_true]
  unfold clickedWorld logEvent
  simp

/-- Helper: a successful run of `fillInput` at the default timeout. -/
theorem fillInput_run (w : World) (e : ElemId) (v : String)
    (h : visibleWithin w e 10000 = true) :
    fillInput e v 10000 w = (Except.ok (), filledWorld w e v) := by
  unfold fillInput waitForElement mbind
  rw [waitForState_run]
  simp only [h, if_true]
  unfold locatorClear
  rw [visibleWithin_logEvent]
  simp only [h, if_true]
  unfold locatorFill
  have : visibleWithin
      { logEvent w (Event.waitVisible e 10000) with
        valueOf := fun x => if x = e then "" else (logEvent w (Event.waitVisible e 10000)).valueOf x,
        events := (logEvent w (Event.waitVisible e 10000)).events ++ [Event.clearField e] }
      e 10000 = true := h
  rw [this]
  unfold filledWorld logEvent
  simp only [if_true]
  congr 2
  · funext x
    by_cases hx : x = e <;> simp [hx]
  · simp

/-- Clicking does not change the element environment. -/
theorem visibleWithin_clickedWorld (w : World) (e e' : ElemId) (t : Nat) :
    visibleWithin (clickedWorld w e) e' t = visibleWithin w e' t := rfl

/-- Filling does not change the element environment. -/
theorem visibleWithin_filledWorld (w : World) (e e' : ElemId) (v : String) (t : Nat) :
    visibleWithin (filledWorld w e v) e' t = visibleWithin w e' t := rfl

/-- C5: `setRememberMe` is convergent, not alternating: it clicks only when
the current checked state differs from the requested one, so a second call
with the same argument performs no click (it only re-reads the state,
logging one visibility wait) and the checkbox stays in state `b`. -/
theorem setRememberMe_convergent (b : Bool) (w : World)
    (h : visibleWithin w ElemId.rememberMeCheckbox 10000 = true) :
    ∃ w1 w2,
      setRememberMe b w = (Except.ok (), w1) ∧
      w1.checkedOf ElemId.rememberMeCheckbox = b ∧
      setRememberMe b w1 = (Except.ok (), w2) ∧
      w2.checkedOf = w1.checkedOf ∧
      w2.valueOf = w1.valueOf ∧
      w2.events = w1.events ++ [Event.waitVisible ElemId.rememberMeCheckbox 10000] := by
  by_cases hc : w.checkedOf ElemId.rememberMeCheckbox = b
  · refine ⟨logEvent w (Event.waitVisible ElemId.rememberMeCheckbox 10000),
      logEvent (logEvent w (Event.waitVisible ElemId.rememberMeCheckbox 10000))
        (Event.waitVisible ElemId.rememberMeCheckbox 10000), ?_, hc, ?_, rfl, rfl, rfl⟩
    · unfold setRememberMe mbind
      rw [isElementChecked_run w ElemId.rememberMeCheckbox h]
      simp [hc, mpure]
    · unfold setRememberMe mbind
      rw [isElementChecked_run (logEvent w (Event.waitVisible ElemId.rememberMeCheckbox 10000))
        ElemId.rememberMeCheckbox h]
      simp [logEvent, hc, mpure]
  · have hb : (!(w.checkedOf ElemId.rememberMeCheckbox)) = b := by
      cases hcb : w.checkedOf ElemId.rememberMeCheckbox <;> cases b <;> simp_all
    have hck : (clickedWorld (logEvent w (Event.waitVisible ElemId.rememberMeCheckbox 10000))
        ElemId.rememberMeCheckbox).checkedOf ElemId.rememberMeCheckbox = b := by
      simpa [clickedWorld, logEvent] using hb
    refine ⟨clickedWorld (logEvent w (Event.waitVisible ElemId.rememberMeCheckbox 10000))
        ElemId.rememberMeCheckbox,
      logEvent
        (clickedWorld (logEvent w (Event.waitVisible ElemId.rememberMeCheckbox 10000))
          ElemId.rememberMeCheckbox)
        (Event.waitVisible ElemId.rememberMeCheckbox 10000), ?_, hck, ?_, rfl, rfl, rfl⟩
    · unfold setRememberMe mbind
      rw [isElementChecked_run w ElemId.rememberMeCheckbox h]
      simp only [logEvent, hc, ne_eq, not_false_iff, if_true]
      exact clickElement_run (logEvent w (Event.waitVisible ElemId.rememberMeCheckbox 10000))
        ElemId.rememberMeCheckbox h
    · unfold setRememberMe mbind
      rw [isElementChecked_run
        (clickedWorld (logEvent w (Event.waitVisible ElemId.rememberMeCheckbox 10000))
          ElemId.rememberMeCheckbox)
        ElemId.rememberMeCheckbox h]
      simp [hck, mpure]

/-- Witness for C5: a checkbox that is visible at once and initially
unchecked, requested state `true`. -/
theorem setRememberMe_convergent_witness :
    visibleWithin
        { baseWorld with visibleAt := fun _ => some 0 }
        ElemId.rememberMeCheckbox 10000 = true ∧
      ∃ w1 w2,
        setRememberMe true { baseWorld with visibleAt := fun _ => some 0 } = (Except.ok (), w1) ∧
        w1.checkedOf ElemId.rememberMeCheckbox = true ∧
        setRememberMe true w1 = (Except.ok (), w2) ∧
        w2.checkedOf = w1.checkedOf ∧
        w2.valueOf = w1.valueOf ∧
        w2.events = w1.events ++ [Event.waitVisible ElemId.rememberMeCheckbox 10000] :=
  ⟨rfl, setRememberMe_convergent true { baseWorld with visibleAt := fun _ => some 0 } rfl⟩

/-- The world after a successful bare `locator.clear()` on `e`. -/
def clearedWorld (w : World) (e : ElemId) : World :=
  { w with
    valueOf := fun x => if x = e then "" else w.valueOf x,
    events := w.events ++ [Event.clearField e] }

/-- Helper: a successful run of a bare `locator.clear()`. -/
theorem locatorClear_run (w : World) (e : ElemId)
    (h : visibleWithin w e 10000 = true) :
    locatorClear e w = (Except.ok (), clearedWorld w e) := by
  unfold locatorClear clearedWorld
  simp [h]

/-- Clearing does not change the element environment. -/
theorem visibleWithin_clearedWorld (w : World) (e e' : ElemId) (t : Nat) :
    visibleWithin (clearedWorld w e) e' t = visibleWithin w e' t := rfl

/-- Clearing does not change the checkbox states. -/
theorem checkedOf_clearedWorld (w : World) (e : ElemId) :
    (clearedWorld w e).checkedOf = w.checkedOf := rfl

/-- Helper: a run of `clearForm` when remember-me is currently unchecked:
both fields are cleared and the checkbox is read but not clicked. -/
theorem clearForm_run_unchecked (w : World)
    (hE : visibleWithin w ElemId.emailInput 10000 = true)
    (hP : visibleWithin w ElemId.passwordInput 10000 = true)
    (hC : visibleWithin w ElemId.rememberMeCheckbox 10000 = true)
    (hcb : w.checkedOf ElemId.rememberMeCheckbox = false) :
    clearForm w =
      (Except.ok (),
        logEvent (clearedWorld (clearedWorld w ElemId.emailInput) ElemId.passwordInput)
          (Event.waitVisible ElemId.rememberMeCheckbox 10000)) := by
  unfold clearForm mbind
  rw [locatorClear_run w ElemId.emailInput hE]
  dsimp only
  rw [locatorClear_run (clearedWorld w ElemId.emailInput) ElemId.passwordInput hP]
  dsimp only
  rw [isElementChecked_run (clearedWorld (clearedWorld w ElemId.emailInput) ElemId.passwordInput)
    ElemId.rememberMeCheckbox hC]
  dsimp only
  have hcb' : (clearedWorld (clearedWorld w ElemId.emailInput) ElemId.passwordInput).checkedOf
      ElemId.rememberMeCheckbox = false := hcb
  simp [hcb', mpure]

/-- Helper: a run of `clearForm` when remember-me is currently checked:
both fields are cleared, the checkbox is read twice and then clicked. -/
theorem clearForm_run_checked (w : World)
    (hE : visibleWithin w ElemId.emailInput 10000 = true)
    (hP : visibleWithin w ElemId.passwordInput 10000 = true)
    (hC : visibleWithin w ElemId.rememberMeCheckbox 10000 = true)
    (hcb : w.checkedOf ElemId.rememberMeCheckbox = true) :
    clearForm w =
      (Except.ok (),
        clickedWorld
          (logEvent
            (logEvent (clearedWorld (clearedWorld w ElemId.emailInput) ElemId.passwordInput)
              (Event.waitVisible ElemId.rememberMeCheckbox 10000))
            (Event.waitVisible ElemId.rememberMeCheckbox 10000))
          ElemId.rememberMeCheckbox) := by
  unfold clearForm mbind
  rw [locatorClear_run w ElemId.emailInput hE]
  dsimp only
  rw [locatorClear_run (clearedWorld w ElemId.emailInput) ElemId.passwordInput hP]
  dsimp only
  rw [isElementChecked_run (clearedWorld (clearedWorld w ElemId.emailInput) ElemId.passwordInput)
    ElemId.rememberMeCheckbox hC]
  dsimp only
  have hcb' : (clearedWorld (clearedWorld w ElemId.emailInput) ElemId.passwordInput).checkedOf
      ElemId.rememberMeCheckbox = true := hcb
  simp only [hcb', if_true]
  unfold setRememberMe mbind
  rw [isElementChecked_run
    (logEvent (clearedWorld (clearedWorld w ElemId.emailInput) ElemId.passwordInput)
      (Event.waitVisible ElemId.rememberMeCheckbox 10000))
    ElemId.rememberMeCheckbox hC]
  have hcb2 : (logEvent (clearedWorld (clearedWorld w ElemId.emailInput) ElemId.passwordInput)
      (Event.waitVisible ElemId.rememberMeCheckbox 10000)).checkedOf
      ElemId.rememberMeCheckbox = true := hcb
  simp only [hcb2, ne_eq, Bool.true_eq_false, not_false_iff, if_true]
  exact clickElement_run _ ElemId.rememberMeCheckbox hC

/-- Helper: a second `clearForm` from an already-cleared form changes no
form state and performs no click. -/
theorem clearForm_second (w1 : World)
    (hE : visibleWithin w1 ElemId.emailInput 10000 = true)
    (hP : visibleWithin w1 ElemId.passwordInput 10000 = true)
    (hC : visibleWithin w1 ElemId.rememberMeCheckbox 10000 = true)
    (he : w1.valueOf ElemId.emailInput = "")
    (hp : w1.valueOf ElemId.passwordInput = "")
    (hcb : w1.checkedOf ElemId.rememberMeCheckbox = false) :
    ∃ w2,
      clearForm w1 = (Except.ok (), w2) ∧
      w2.valueOf = w1.valueOf ∧
      w2.checkedOf = w1.checkedOf ∧
      w2.events = w1.events ++
        [Event.clearField ElemId.emailInput, Event.clearField ElemId.passwordInput,
          Event.waitVisible ElemId.rememberMeCheckbox 10000] := by
  refine ⟨logEvent (clearedWorld (clearedWorld w1 ElemId.emailInput) ElemId.passwordInput)
      (Event.waitVisible ElemId.rememberMeCheckbox 10000),
    clearForm_run_unchecked w1 hE hP hC hcb, ?_, rfl, ?_⟩
  · funext x
    by_cases h1 : x = ElemId.emailInput
    · simp [logEvent, clearedWorld, h1, he]
    · by_cases h2 : x = ElemId.passwordInput
      · simp [logEvent, clearedWorld, h1, h2, hp]
      · simp [logEvent, clearedWorld, h1, h2]
  · simp [logEvent, clearedWorld]

/-- C6: `clearForm` is idempotent: from any form state a first call leaves
the email and password fields empty and the remember-me checkbox unchecked,
and a second call reproduces exactly the same form state while performing
no click — it only re-clears the empty fields and re-reads the checkbox
(which it unchecks only if currently checked, and it no longer is). -/
theorem clearForm_idempotent (w : World)
    (hE : visibleWithin w ElemId.emailInput 10000 = true)
    (hP : visibleWithin w ElemId.passwordInput 10000 = true)
    (hC : visibleWithin w ElemId.rememberMeCheckbox 10000 = true) :
    ∃ w1 w2,
      clearForm w = (Except.ok (), w1) ∧
      clearForm w1 = (Except.ok (), w2) ∧
      w1.valueOf ElemId.emailInput = "" ∧
      w1.valueOf ElemId.passwordInput = "" ∧
      w1.checkedOf ElemId.rememberMeCheckbox = false ∧
      w2.valueOf = w1.valueOf ∧
      w2.checkedOf = w1.checkedOf ∧
      w2.events = w1.events ++
        [Event.clearField ElemId.emailInput, Event.clearField ElemId.passwordInput,
          Event.waitVisible ElemId.rememberMeCheckbox 10000] := by
  cases hcb : w.checkedOf ElemId.rememberMeCheckbox
  · refine ⟨logEvent (clearedWorld (clearedWorld w ElemId.emailInput) ElemId.passwordInput)
        (Event.waitVisible ElemId.rememberMeCheckbox 10000), ?_⟩
    have h1 := clearForm_run_unchecked w hE hP hC hcb
    have hsec := clearForm_second
      (logEvent (clearedWorld (clearedWorld w ElemId.emailInput) ElemId.passwordInput)
        (Event.waitVisible ElemId.rememberMeCheckbox 10000))
      hE hP hC (by simp [logEvent, clearedWorld]) (by simp [logEvent, clearedWorld]) hcb
    rcases hsec with ⟨w2, h2, hv, hk, hev⟩
    exact ⟨w2, h1, h2, by simp [logEvent, clearedWorld], by simp [logEvent, clearedWorld],
      hcb, hv, hk, hev⟩
  · refine ⟨clickedWorld
        (logEvent
          (logEvent (clearedWorld (clearedWorld w ElemId.emailInput) ElemId.passwordInput)
            (Event.waitVisible ElemId.rememberMeCheckbox 10000))
          (Event.waitVisible ElemId.rememberMeCheckbox 10000))
        ElemId.rememberMeCheckbox, ?_⟩
    have h1 := clearForm_run_checked w hE hP hC hcb
    have hunch : (clickedWorld
        (logEvent
          (logEvent (clearedWorld (clearedWorld w ElemId.emailInput) ElemId.passwordInput)
            (Event.waitVisible ElemId.rememberMeCheckbox 10000))
          (Event.waitVisible ElemId.rememberMeCheckbox 10000))
        ElemId.rememberMeCheckbox).checkedOf ElemId.rememberMeCheckbox = false := by
      simp [clickedWorld, logEvent, clearedWorld, hcb]
    have hsec := clearForm_second
      (clickedWorld
        (logEvent
          (logEvent (clearedWorld (clearedWorld w ElemId.emailInput) ElemId.passwordInput)
            (Event.waitVisible ElemId.rememberMeCheckbox 10000))
          (Event.waitVisible ElemId.rememberMeCheckbox 10000))
        ElemId.rememberMeCheckbox)
      hE hP hC
      (by simp [clickedWorld, logEvent, clearedWorld])
      (by simp [clickedWorld, logEvent, clearedWorld]) hunch
    rcases hsec with ⟨w2, h2, hv, hk, hev⟩
    exact ⟨w2, h1, h2, by simp [clickedWorld, logEvent, clearedWorld],
      by simp [clickedWorld, logEvent, clearedWorld], hunch, hv, hk, hev⟩

/-- A world in which every element is visible at once (used to discharge
hypotheses at concrete inputs). -/
def allVisibleWorld : World :=
  { baseWorld with visibleAt := fun _ => some 0 }

/-- Witness for C6 at a concrete world with all form elements visible. -/
theorem clearForm_idempotent_witness :
    (visibleWithin allVisibleWorld ElemId.emailInput 10000 = true ∧
      visibleWithin allVisibleWorld ElemId.passwordInput 10000 = true ∧
      visibleWithin allVisibleWorld ElemId.rememberMeCheckbox 10000 = true) ∧
    ∃ w1 w2,
      clearForm allVisibleWorld = (Except.ok (), w1) ∧
      clearForm w1 = (Except.ok (), w2) ∧
      w1.valueOf ElemId.emailInput = "" ∧
      w1.valueOf ElemId.passwordInput = "" ∧
      w1.checkedOf ElemId.rememberMeCheckbox = false ∧
      w2.valueOf = w1.valueOf ∧
      w2.checkedOf = w1.checkedOf ∧
      w2.events = w1.events ++
        [Event.clearField ElemId.emailInput, Event.clearField ElemId.passwordInput,
          Event.waitVisible ElemId.rememberMeCheckbox 10000] :=
  ⟨⟨rfl, rfl, rfl⟩, clearForm_idempotent allVisibleWorld rfl rfl rfl⟩

/-- Helper: a successful run of `setRememberMe`: click only on mismatch. -/
theorem setRememberMe_run (b : Bool) (w : World)
    (h : visibleWithin w ElemId.rememberMeCheckbox 10000 = true) :
    setRememberMe b w =
      (Except.ok (),
        if w.checkedOf ElemId.rememberMeCheckbox = b then
          logEvent w (Event.waitVisible ElemId.rememberMeCheckbox 10000)
        else
          clickedWorld (logEvent w (Event.waitVisible ElemId.rememberMeCheckbox 10000))
            ElemId.rememberMeCheckbox) := by
  unfold setRememberMe mbind
  rw [isElementChecked_run w ElemId.rememberMeCheckbox h]
  dsimp only
  by_cases hc : w.checkedOf ElemId.rememberMeCheckbox = b
  · simp [hc, mpure]
  · rw [if_neg hc, if_pos hc]
    exact clickElement_run _ ElemId.rememberMeCheckbox h

/-- C7: `login(credentials)` performs exactly enterEmail, then
enterPassword, then `setRememberMe(true)` only when
`credentials.rememberMe` is truthy, and the submit click last; when
remember-me is not requested the checkbox is never touched and keeps its
prior state. -/
theorem login_sequence (creds : UserCredentials) (w : World)
    (hE : visibleWithin w ElemId.emailInput 10000 = true)
    (hP : visibleWithin w ElemId.passwordInput 10000 = true)
    (hB : visibleWithin w ElemId.loginButton 10000 = true)
    (hC : visibleWithin w ElemId.rememberMeCheckbox 10000 = true) :
    ∃ w',
      login creds w = (Except.ok (), w') ∧
      w'.valueOf ElemId.emailInput = creds.email ∧
      w'.valueOf ElemId.passwordInput = creds.password ∧
      w'.events = w.events ++
        ([Event.waitVisible ElemId.emailInput 10000, Event.clearField ElemId.emailInput,
            Event.fill ElemId.emailInput creds.email,
            Event.waitVisible ElemId.passwordInput 10000, Event.clearField ElemId.passwordInput,
            Event.fill ElemId.passwordInput creds.password] ++
          (if creds.rememberMe = some true then
            (if w.checkedOf ElemId.rememberMeCheckbox then
              [Event.waitVisible ElemId.rememberMeCheckbox 10000]
            else
              [Event.waitVisible ElemId.rememberMeCheckbox 10000,
                Event.waitVisible ElemId.rememberMeCheckbox 10000,
                Event.click ElemId.rememberMeCheckbox])
          else []) ++
          [Event.waitVisible ElemId.loginButton 10000, Event.click ElemId.loginButton]) ∧
      (creds.rememberMe ≠ some true →
        w'.checkedOf ElemId.rememberMeCheckbox = w.checkedOf ElemId.rememberMeCheckbox) ∧
      (creds.rememberMe = some true →
        w'.checkedOf ElemId.rememberMeCheckbox = true) := by
  unfold login enterEmail enterPassword clickLoginButton mbind
  rw [fillInput_run w ElemId.emailInput creds.email hE]
  dsimp only
  rw [fillInput_run (filledWorld w ElemId.emailInput creds.email) ElemId.passwordInput
    creds.password hP]
  dsimp only
  by_cases hrm : creds.rememberMe = some true
  · rw [if_pos hrm]
    rw [setRememberMe_run true
      (filledWorld (filledWorld w ElemId.emailInput creds.email) ElemId.passwordInput
        creds.password) hC]
    dsimp only
    cases hcb : w.checkedOf ElemId.rememberMeCheckbox
    · have hcb' : (filledWorld (filledWorld w ElemId.emailInput creds.email)
          ElemId.passwordInput creds.password).checkedOf ElemId.rememberMeCheckbox = false := hcb
      rw [if_neg (by rw [hcb']; exact Bool.false_ne_true)]
      rw [clickElement_run
        (clickedWorld
          (logEvent (filledWorld (filledWorld w ElemId.emailInput creds.email)
            ElemId.passwordInput creds.password)
            (Event.waitVisible ElemId.rememberMeCheckbox 10000))
          ElemId.rememberMeCheckbox)
        ElemId.loginButton hB]
      refine ⟨_, rfl, ?_, ?_, ?_, ?_, ?_⟩
      · simp [clickedWorld, logEvent, filledWorld]
      · simp [clickedWorld, logEvent, filledWorld]
      · simp [clickedWorld, logEvent, filledWorld, hrm, hcb]
      · intro hn; exact absurd hrm hn
      · intro _
        simp [clickedWorld, logEvent, filledWorld, hcb]
    · have hcb' : (filledWorld (filledWorld w ElemId.emailInput creds.email)
          ElemId.passwordInput creds.password).checkedOf ElemId.rememberMeCheckbox = true := hcb
      rw [if_pos hcb']
      rw [clickElement_run
        (logEvent (filledWorld (filledWorld w ElemId.emailInput creds.email)
          ElemId.passwordInput creds.password)
          (Event.waitVisible ElemId.rememberMeCheckbox 10000))
        ElemId.loginButton hB]
      refine ⟨_, rfl, ?_, ?_, ?_, ?_, ?_⟩
      · simp [clickedWorld, logEvent, filledWorld]
      · simp [clickedWorld, logEvent, filledWorld]
      · simp [clickedWorld, logEvent, filledWorld, hrm, hcb]
      · intro hn; exact absurd hrm hn
      · intro _
        simp [clickedWorld, logEvent, filledWorld, hcb]
  · rw [if_neg hrm]
    dsimp only [mpure]
    rw [clickElement_run
      (filledWorld (filledWorld w ElemId.emailInput creds.email) ElemId.passwordInput
        creds.password)
      ElemId.loginButton hB]
    refine ⟨_, rfl, ?_, ?_, ?_, ?_, ?_⟩
    · simp [clickedWorld, logEvent, filledWorld]
    · simp [clickedWorld, logEvent, filledWorld]
    · simp [clickedWorld, logEvent, filledWorld, hrm]
    · intro _
      simp [clickedWorld, filledWorld]
    · intro hy; exact absurd hy hrm

/-- Concrete credentials (the standard test user) for witnesses. -/
def testCreds : UserCredentials :=
  { email := "test@example.com", password := "ValidPassword123!", rememberMe := some true }

/-- Witness for C7 at a concrete world and concrete credentials. -/
theorem login_sequence_witness :
    (visibleWithin allVisibleWorld ElemId.emailInput 10000 = true ∧
      visibleWithin allVisibleWorld ElemId.passwordInput 10000 = true ∧
      visibleWithin allVisibleWorld ElemId.loginButton 10000 = true ∧
      visibleWithin allVisibleWorld ElemId.rememberMeCheckbox 10000 = true) ∧
    ∃ w',
      login testCreds allVisibleWorld = (Except.ok (), w') ∧
      w'.valueOf ElemId.emailInput = testCreds.email ∧
      w'.valueOf ElemId.passwordInput = testCreds.password ∧
      w'.events = allVisibleWorld.events ++
        ([Event.waitVisible ElemId.emailInput 10000, Event.clearField ElemId.emailInput,
            Event.fill ElemId.emailInput testCreds.email,
            Event.waitVisible ElemId.passwordInput 10000, Event.clearField ElemId.passwordInput,
            Event.fill ElemId.passwordInput testCreds.password] ++
          (if testCreds.rememberMe = some true then
            (if allVisibleWorld.checkedOf ElemId.rememberMeCheckbox then
              [Event.waitVisible ElemId.rememberMeCheckbox 10000]
            else
              [Event.waitVisible ElemId.rememberMeCheckbox 10000,
                Event.waitVisible ElemId.rememberMeCheckbox 10000,
                Event.click ElemId.rememberMeCheckbox])
          else []) ++
          [Event.waitVisible ElemId.loginButton 10000, Event.click ElemId.loginButton]) ∧
      (testCreds.rememberMe ≠ some true →
        w'.checkedOf ElemId.rememberMeCheckbox =
          allVisibleWorld.checkedOf ElemId.rememberMeCheckbox) ∧
      (testCreds.rememberMe = some true →
        w'.checkedOf ElemId.rememberMeCheckbox = true) :=
  ⟨⟨rfl, rfl, rfl, rfl⟩, login_sequence testCreds allVisibleWorld rfl rfl rfl rfl⟩

/-- Visibility within a window is monotone in the window. -/
theorem visibleWithin_mono (w : World) (e : ElemId) {t t' : Nat} (htt : t ≤ t')
    (h : visibleWithin w e t = true) : visibleWithin w e t' = true := by
  unfold visibleWithin at h ⊢
  rcases hv : w.visibleAt e with _ | v
  · rw [hv] at h; exact absurd h (by simp)
  · rw [hv] at h
    simp only [decide_eq_true_eq] at h ⊢
    omega

/-- C3: `navigateToUrl` with the default 30 s timeout returns successfully
only when the `networkidle` state was reached within the timeout, and by
the Playwright lifecycle ordering the document content was then also
loaded — both conditions hold at return, not just one of them. -/
theorem navigateToUrl_waits_both (url : String) (pl : PageLoad)
    (h : navigateToUrl url 30000 pl = Except.ok ()) :
    pl.networkIdleAt ≤ 30000 ∧ pl.domContentLoadedAt ≤ 30000 := by
  unfold navigateToUrl gotoNetworkIdle at h
  by_cases hn : pl.networkIdleAt ≤ 30000
  · exact ⟨hn, le_trans pl.orderInv hn⟩
  · rw [if_neg hn] at h
    exact absurd h (by simp)

/-- A concrete page-load lifecycle for witnesses. -/
def samplePageLoad : PageLoad :=
  { domContentLoadedAt := 3, networkIdleAt := 5, orderInv := by omega }

/-- Witness for C3 at a concrete navigation. -/
theorem navigateToUrl_waits_both_witness :
    samplePageLoad.networkIdleAt ≤ 30000 ∧ samplePageLoad.domContentLoadedAt ≤ 30000 :=
  navigateToUrl_waits_both "https://example.com/login" samplePageLoad rfl

/-- A found escape path indeed no longer contains the needle. -/
theorem findPath_escapes (sub : String) (timeout : Nat) (loc : PathTrace) (p : String)
    (h : findPath sub timeout loc = some p) : strContains p sub = false := by
  unfold findPath at h
  by_cases h0 : pathEscaped sub loc.current = true
  · rw [if_pos h0] at h
    cases h
    unfold pathEscaped at h0
    simpa using h0
  · rw [if_neg h0] at h
    rcases hf : loc.changes.find? (fun c => decide (c.1 ≤ timeout) && pathEscaped sub c.2)
      with _ | c
    · rw [hf] at h; cases h
    · rw [hf] at h
      cases h
      have hpr := List.find?_some hf
      simp only [Bool.and_eq_true] at hpr
      have h2 : pathEscaped sub c.2 = true := hpr.2
      unfold pathEscaped at h2
      simpa using h2

/-- Helper: how one hidden-wait runs. -/
theorem waitForHiddenState_run (w : World) (e : ElemId) (t : Nat) :
    waitForHiddenState e t w =
      (if hiddenWithin w e t then Except.ok () else Except.error PwError.timeout,
        logEvent w (Event.waitHidden e t)) := by
  unfold waitForHiddenState
  cases h : hiddenWithin w e t <;> simp [h]

/-- `waitForLoadingToComplete` always returns normally and only appends
wait events: environment, element state and location are untouched. -/
theorem waitForLoadingToComplete_run (w : World) :
    ∃ wl, waitForLoadingToComplete w = (Except.ok (), wl) ∧
      wl.visibleAt = w.visibleAt ∧ wl.hiddenAt = w.hiddenAt ∧
      wl.textOf = w.textOf ∧ wl.path = w.path ∧
      wl.valueOf = w.valueOf ∧ wl.checkedOf = w.checkedOf := by
  unfold waitForLoadingToComplete mbind waitForElement waitForElementToBeHidden
  cases hv : visibleWithin w ElemId.loadingSpinner TIMEOUTS.SHORT
  · rw [waitForState_run]
    simp only [hv, if_false, Bool.false_eq_true]
    exact ⟨_, rfl, rfl, rfl, rfl, rfl, rfl, rfl⟩
  · rw [waitForState_run]
    simp only [hv, if_true]
    cases hh : hiddenWithin w ElemId.loadingSpinner TIMEOUTS.MEDIUM
    · rw [waitForHiddenState_run]
      have hh' : hiddenWithin (logEvent w (Event.waitVisible ElemId.loadingSpinner TIMEOUTS.SHORT))
          ElemId.loadingSpinner TIMEOUTS.MEDIUM = false := hh
      simp only [hh', if_false, Bool.false_eq_true]
      exact ⟨_, rfl, rfl, rfl, rfl, rfl, rfl, rfl⟩
    · rw [waitForHiddenState_run]
      have hh' : hiddenWithin (logEvent w (Event.waitVisible ElemId.loadingSpinner TIMEOUTS.SHORT))
          ElemId.loadingSpinner TIMEOUTS.MEDIUM = true := hh
      simp only [hh', if_true]
      exact ⟨_, rfl, rfl, rfl, rfl, rfl, rfl, rfl⟩


/-- Logging does not change the location. -/
theorem path_logEvent (w : World) (ev : Event) :
    (logEvent w ev).path = w.path := rfl

/-- Helper: with the form elements reachable, `login` succeeds and touches
only values, checkbox states and the log — environment, text, and location
are untouched. -/
theorem login_run (creds : UserCredentials) (w : World)
    (hE : visibleWithin w ElemId.emailInput 10000 = true)
    (hP : visibleWithin w ElemId.passwordInput 10000 = true)
    (hB : visibleWithin w ElemId.loginButton 10000 = true)
    (hC : visibleWithin w ElemId.rememberMeCheckbox 10000 = true) :
    ∃ w1, login creds w = (Except.ok (), w1) ∧
      w1.visibleAt = w.visibleAt ∧ w1.hiddenAt = w.hiddenAt ∧
      w1.textOf = w.textOf ∧ w1.path = w.path := by
  unfold login enterEmail enterPassword clickLoginButton mbind
  rw [fillInput_run w ElemId.emailInput creds.email hE]
  dsimp only
  rw [fillInput_run (filledWorld w ElemId.emailInput creds.email) ElemId.passwordInput
    creds.password hP]
  dsimp only
  by_cases hrm : creds.rememberMe = some true
  · rw [if_pos hrm]
    rw [setRememberMe_run true
      (filledWorld (filledWorld w ElemId.emailInput creds.email) ElemId.passwordInput
        creds.password) hC]
    dsimp only
    by_cases hcb : (filledWorld (filledWorld w ElemId.emailInput creds.email)
        ElemId.passwordInput creds.password).checkedOf ElemId.rememberMeCheckbox = true
    · rw [if_pos hcb]
      rw [clickElement_run
        (logEvent (filledWorld (filledWorld w ElemId.emailInput creds.email)
          ElemId.passwordInput creds.password)
          (Event.waitVisible ElemId.rememberMeCheckbox 10000))
        ElemId.loginButton hB]
      exact ⟨_, rfl, rfl, rfl, rfl, rfl⟩
    · rw [if_neg hcb]
      rw [clickElement_run
        (clickedWorld
          (logEvent (filledWorld (filledWorld w ElemId.emailInput creds.email)
            ElemId.passwordInput creds.password)
            (Event.waitVisible ElemId.rememberMeCheckbox 10000))
          ElemId.rememberMeCheckbox)
        ElemId.loginButton hB]
      exact ⟨_, rfl, rfl, rfl, rfl, rfl⟩
  · rw [if_neg hrm]
    dsimp only [mpure]
    rw [clickElement_run
      (filledWorld (filledWorld w ElemId.emailInput creds.email) ElemId.passwordInput
        creds.password)
      ElemId.loginButton hB]
    exact ⟨_, rfl, rfl, rfl, rfl, rfl⟩

/-- Helper: `validateErrorMessage(msg)` succeeds exactly when the error
banner becomes visible within `TIMEOUTS.MEDIUM` and its text contains the
expected message. -/
theorem validateErrorMessage_ok_iff (msg : String) (w : World) :
    (validateErrorMessage msg w).1 = Except.ok () ↔
      (visibleWithin w ElemId.errorMessage TIMEOUTS.MEDIUM = true ∧
        strContains (w.textOf ElemId.errorMessage) msg = true) := by
  unfold validateErrorMessage mbind waitForElement getElementText expectToBeVisible expectToBe
  rw [waitForState_run]
  cases hv : visibleWithin w ElemId.errorMessage TIMEOUTS.MEDIUM
  · simp [hv]
  · simp only [hv, eq_self_iff_true, if_true]
    have hv10 : visibleWithin (logEvent w (Event.waitVisible ElemId.errorMessage TIMEOUTS.MEDIUM))
        ElemId.errorMessage 10000 = true := hv
    simp only [hv10, eq_self_iff_true, if_true]
    unfold mbind waitForElement
    rw [waitForState_run]
    have hv10b : visibleWithin (logEvent w (Event.waitVisible ElemId.errorMessage TIMEOUTS.MEDIUM))
        ElemId.errorMessage 10000 = true := hv
    simp only [visibleWithin_logEvent, hv10b, eq_self_iff_true, if_true]
    dsimp only [logEvent]
    cases hs : strContains (w.textOf ElemId.errorMessage) msg
    · simp [hs]
    · simp [hs]

/-- Helper: how a bounded location poll runs. -/
theorem waitForPathEscape_run (sub : String) (t : Nat) (w : World) :
    waitForPathEscape sub t w =
      (match findPath sub t w.path with
      | some p => (Except.ok (),
          { logEvent w (Event.waitForPath sub t) with
            path := { current := p, changes := w.path.changes } })
      | none => (Except.error PwError.timeout, logEvent w (Event.waitForPath sub t))) := by
  unfold waitForPathEscape
  dsimp only
  rcases h : findPath sub t w.path with _ | p
  · have h' : findPath sub t (logEvent w (Event.waitForPath sub t)).path = none := h
    rw [h']
  · have h' : findPath sub t (logEvent w (Event.waitForPath sub t)).path = some p := h
    rw [h']
    rfl

/-- C1: `attemptLogin` first runs `login`; with `expectSuccess = true` it
then waits for loading to complete and polls (bounded `TIMEOUTS.MEDIUM`,
10 s) until the current pathname no longer contains `URLs.LOGIN`, so a
successful run ends on a path without `/login` and its last logged step is
that bounded poll; with `expectSuccess = false` it instead asserts the
top-level error banner: it succeeds exactly when the banner becomes
visible and its text contains `ERROR_MESSAGES.INVALID_CREDENTIALS`. -/
theorem attemptLogin_spec (creds : UserCredentials) (w : World)
    (hE : visibleWithin w ElemId.emailInput 10000 = true)
    (hP : visibleWithin w ElemId.passwordInput 10000 = true)
    (hB : visibleWithin w ElemId.loginButton 10000 = true)
    (hC : visibleWithin w ElemId.rememberMeCheckbox 10000 = true) :
    ∃ w1,
      login creds w = (Except.ok (), w1) ∧
      attemptLogin creds true w =
        mbind waitForLoadingToComplete
          (fun _ => waitForPathEscape URLs.LOGIN TIMEOUTS.MEDIUM) w1 ∧
      attemptLogin creds false w =
        validateErrorMessage ERROR_MESSAGES.INVALID_CREDENTIALS w1 ∧
      (∀ w2, attemptLogin creds true w = (Except.ok (), w2) →
        strContains w2.path.current URLs.LOGIN = false ∧
        ∃ pre, w2.events = pre ++ [Event.waitForPath URLs.LOGIN TIMEOUTS.MEDIUM]) ∧
      ((attemptLogin creds false w).1 = Except.ok () ↔
        (visibleWithin w ElemId.errorMessage TIMEOUTS.MEDIUM = true ∧
          strContains (w.textOf ElemId.errorMessage)
            ERROR_MESSAGES.INVALID_CREDENTIALS = true)) := by
  obtain ⟨w1, hlogin, hva, hha, hto, hpa⟩ := login_run creds w hE hP hB hC
  have hTrue : attemptLogin creds true w =
      mbind waitForLoadingToComplete
        (fun _ => waitForPathEscape URLs.LOGIN TIMEOUTS.MEDIUM) w1 := by
    unfold attemptLogin mbind
    rw [hlogin]
    rfl
  have hFalse : attemptLogin creds false w =
      validateErrorMessage ERROR_MESSAGES.INVALID_CREDENTIALS w1 := by
    unfold attemptLogin mbind
    rw [hlogin]
    rfl
  refine ⟨w1, hlogin, hTrue, hFalse, ?_, ?_⟩
  · intro w2 h2
    rw [hTrue] at h2
    obtain ⟨wl, hwl, hlva, hlha, hlto, hlpa, _, _⟩ := waitForLoadingToComplete_run w1
    unfold mbind at h2
    rw [hwl] at h2
    dsimp only at h2
    rw [waitForPathEscape_run] at h2
    rcases hfp : findPath URLs.LOGIN TIMEOUTS.MEDIUM wl.path with _ | p
    · rw [hfp] at h2
      exact absurd (congrArg Prod.fst h2) (by simp)
    · rw [hfp] at h2
      have hw2 : w2 = { logEvent wl (Event.waitForPath URLs.LOGIN TIMEOUTS.MEDIUM) with
          path := { current := p, changes := wl.path.changes } } := by
        have := congrArg Prod.snd h2
        exact this.symm
      constructor
      · rw [hw2]
        exact findPath_escapes URLs.LOGIN TIMEOUTS.MEDIUM wl.path p hfp
      · exact ⟨wl.events, by rw [hw2]; rfl⟩
  · rw [hFalse]
    have := validateErrorMessage_ok_iff ERROR_MESSAGES.INVALID_CREDENTIALS w1
    have hvw : visibleWithin w1 ElemId.errorMessage TIMEOUTS.MEDIUM =
        visibleWithin w ElemId.errorMessage TIMEOUTS.MEDIUM := by
      unfold visibleWithin
      rw [hva]
    have htw : w1.textOf ElemId.errorMessage = w.textOf ElemId.errorMessage := by
      rw [hto]
    rw [hvw, htw] at this
    exact this

/-- Witness for C1 at a concrete world and credentials. -/
theorem attemptLogin_spec_witness :
    (visibleWithin allVisibleWorld ElemId.emailInput 10000 = true ∧
      visibleWithin allVisibleWorld ElemId.passwordInput 10000 = true ∧
      visibleWithin allVisibleWorld ElemId.loginButton 10000 = true ∧
      visibleWithin allVisibleWorld ElemId.rememberMeCheckbox 10000 = true) ∧
    ∃ w1,
      login testCreds allVisibleWorld = (Except.ok (), w1) ∧
      attemptLogin testCreds true allVisibleWorld =
        mbind waitForLoadingToComplete
          (fun _ => waitForPathEscape URLs.LOGIN TIMEOUTS.MEDIUM) w1 ∧
      attemptLogin testCreds false allVisibleWorld =
        validateErrorMessage ERROR_MESSAGES.INVALID_CREDENTIALS w1 ∧
      (∀ w2, attemptLogin testCreds true allVisibleWorld = (Except.ok (), w2) →
        strContains w2.path.current URLs.LOGIN = false ∧
        ∃ pre, w2.events = pre ++ [Event.waitForPath URLs.LOGIN TIMEOUTS.MEDIUM]) ∧
      ((attemptLogin testCreds false allVisibleWorld).1 = Except.ok () ↔
        (visibleWithin allVisibleWorld ElemId.errorMessage TIMEOUTS.MEDIUM = true ∧
          strContains (allVisibleWorld.textOf ElemId.errorMessage)
            ERROR_MESSAGES.INVALID_CREDENTIALS = true)) :=
  ⟨⟨rfl, rfl, rfl, rfl⟩, attemptLogin_spec testCreds allVisibleWorld rfl rfl rfl rfl⟩

/-- C9: `logout` clicks the logout control — opening the profile dropdown
first only when the control is not visible to the 1 s soft probe — and
then polls (bounded `TIMEOUTS.MEDIUM`) until the pathname no longer
contains `URLs.DASHBOARD`: whichever way the control was reached, a
successful run ends on a path without `/dashboard` and its last logged
step is the bounded poll; when the probe already saw the control, the
dropdown is never opened. -/
theorem logout_leaves_dashboard (w : World)
    (hbranch : visibleWithin w ElemId.logoutButton 1000 = true ∨
      (visibleWithin w ElemId.logoutButton 1000 = false ∧
        visibleWithin w ElemId.profileDropdown 10000 = true ∧
        visibleWithin w ElemId.logoutButton TIMEOUTS.SHORT = true))
    (hpath : findPath URLs.DASHBOARD TIMEOUTS.MEDIUM w.path ≠ none) :
    ∃ w',
      logout w = (Except.ok (), w') ∧
      strContains w'.path.current URLs.DASHBOARD = false ∧
      (∃ pre, w'.events = pre ++ [Event.waitForPath URLs.DASHBOARD TIMEOUTS.MEDIUM]) ∧
      (visibleWithin w ElemId.logoutButton 1000 = true →
        w'.events = w.events ++
          [Event.waitVisible ElemId.logoutButton 1000,
            Event.waitVisible ElemId.logoutButton 10000, Event.click ElemId.logoutButton,
            Event.waitForPath URLs.DASHBOARD TIMEOUTS.MEDIUM]) := by
  rcases hfp : findPath URLs.DASHBOARD TIMEOUTS.MEDIUM w.path with _ | p
  · exact absurd hfp hpath
  unfold logout clickLogout mbind
  rw [isElementVisible_run w ElemId.logoutButton]
  dsimp only
  rcases hbranch with hv | ⟨hv, hpd, hlb5⟩
  · rw [hv]
    simp only [Bool.not_true, Bool.false_eq_true, if_false]
    dsimp only [mpure]
    rw [clickElement_run (logEvent w (Event.waitVisible ElemId.logoutButton 1000))
      ElemId.logoutButton (visibleWithin_mono w ElemId.logoutButton (by omega) hv)]
    dsimp only
    rw [waitForPathEscape_run]
    have hfp' : findPath URLs.DASHBOARD TIMEOUTS.MEDIUM
        (clickedWorld (logEvent w (Event.waitVisible ElemId.logoutButton 1000))
          ElemId.logoutButton).path = some p := hfp
    rw [hfp']
    refine ⟨_, rfl, findPath_escapes URLs.DASHBOARD TIMEOUTS.MEDIUM _ p hfp', ?_, ?_⟩
    · exact ⟨_, rfl⟩
    · intro _
      simp [clickedWorld, logEvent]
  · rw [hv]
    simp only [Bool.not_false, eq_self_iff_true, if_true]
    unfold openProfileDropdown waitForElement mbind
    rw [clickElement_run (logEvent w (Event.waitVisible ElemId.logoutButton 1000))
      ElemId.profileDropdown hpd]
    dsimp only
    rw [waitForState_run]
    have hlb5' : visibleWithin
        (clickedWorld (logEvent w (Event.waitVisible ElemId.logoutButton 1000))
          ElemId.profileDropdown)
        ElemId.logoutButton TIMEOUTS.SHORT = true := hlb5
    simp only [hlb5', if_true]
    rw [clickElement_run
      (logEvent
        (clickedWorld (logEvent w (Event.waitVisible ElemId.logoutButton 1000))
          ElemId.profileDropdown)
        (Event.waitVisible ElemId.logoutButton TIMEOUTS.SHORT))
      ElemId.logoutButton (visibleWithin_mono w ElemId.logoutButton (by
        unfold TIMEOUTS.SHORT; omega) hlb5)]
    dsimp only
    rw [waitForPathEscape_run]
    have hfp' : findPath URLs.DASHBOARD TIMEOUTS.MEDIUM
        (clickedWorld
          (logEvent
            (clickedWorld (logEvent w (Event.waitVisible ElemId.logoutButton 1000))
              ElemId.profileDropdown)
            (Event.waitVisible ElemId.logoutButton TIMEOUTS.SHORT))
          ElemId.logoutButton).path = some p := hfp
    rw [hfp']
    refine ⟨_, rfl, findPath_escapes URLs.DASHBOARD TIMEOUTS.MEDIUM _ p hfp', ?_, ?_⟩
    · exact ⟨_, rfl⟩
    · intro hcontra
      exact absurd hcontra (by simp)

/-- A concrete dashboard world: everything visible, currently on
`/dashboard`, redirected to `/home` 5 ms later. -/
def logoutWorld : World :=
  { allVisibleWorld with path := { current := "/dashboard", changes := [(5, "/home")] } }

/-- Witness for C9 at a concrete dashboard world. -/
theorem logout_leaves_dashboard_witness :
    ((visibleWithin logoutWorld ElemId.logoutButton 1000 = true ∨
        (visibleWithin logoutWorld ElemId.logoutButton 1000 = false ∧
          visibleWithin logoutWorld ElemId.profileDropdown 10000 = true ∧
          visibleWithin logoutWorld ElemId.logoutButton TIMEOUTS.SHORT = true)) ∧
      findPath URLs.DASHBOARD TIMEOUTS.MEDIUM logoutWorld.path ≠ none) ∧
    ∃ w',
      logout logoutWorld = (Except.ok (), w') ∧
      strContains w'.path.current URLs.DASHBOARD = false ∧
      (∃ pre, w'.events = pre ++ [Event.waitForPath URLs.DASHBOARD TIMEOUTS.MEDIUM]) ∧
      (visibleWithin logoutWorld ElemId.logoutButton 1000 = true →
        w'.events = logoutWorld.events ++
          [Event.waitVisible ElemId.logoutButton 1000,
            Event.waitVisible ElemId.logoutButton 10000, Event.click ElemId.logoutButton,
            Event.waitForPath URLs.DASHBOARD TIMEOUTS.MEDIUM]) :=
  ⟨⟨Or.inl rfl, by decide⟩, logout_leaves_dashboard logoutWorld (Or.inl rfl) (by decide)⟩
